import Mathlib

/-!
Verification of the audio capture-and-transport pipeline of the realtime
transcription frontend.  The definitions below are shallow embeddings of
`src/lib/websocket.ts` (class `AudioTranscriptionService`) and of the frame
conditioning / silence auto-stop logic of `src/components/AudioRecorder.tsx`
(`handleAudioProcess`).  Machine integers are modelled as `Int`/`Nat` (all
quantities involved stay far below 2^53, where JavaScript numbers are exact);
the square-root comparison `rms > t` of the source is embedded in the
equivalent squared form `t^2 * len < sumOfSquares`, valid since both sides of
the source comparison are non-negative.
-/

namespace RTC

/-! ### Transport session state (`src/lib/websocket.ts`)

Mutable fields of `AudioTranscriptionService` that the reconnect policy and
`disconnect` touch (lines 23-27): `reconnectAttempts`, `isReconnecting`,
`reconnectTimer` (modelled as the delay in ms of the pending timer, if any),
the transport handle `ws` (modelled as presence), and whether the caller
registered an `onError` callback. -/
structure WSState where
  reconnectAttempts : Nat
  isReconnecting : Bool
  reconnectTimer : Option Nat
  ws : Bool
  hasOnError : Bool
deriving DecidableEq

/-- `maxReconnectAttempts = 5` (websocket.ts line 24). -/
def maxReconnectAttempts : Nat := 5

/-- `reconnectDelay = 1000` ms, the base backoff delay (websocket.ts line 25). -/
def reconnectDelay : Nat := 1000

/-- Error events surfaced through the `onError` callback. -/
inductive WSErrorEvent
  | reconnectFailed
deriving DecidableEq

/-- `attemptReconnect` (websocket.ts lines 155-194).  Early-returns when a
reconnect is already in progress; when the attempt counter has reached
`maxReconnectAttempts` it surfaces a reconnect-failure error through the
`onError` callback (if registered) and schedules nothing; otherwise it
increments the counter and schedules a timer with delay
`min(reconnectDelay * 2^(attempts-1), 30000)` (line 171), replacing any
pending timer.  The second component is the error event surfaced, if any. -/
def attemptReconnect (s : WSState) : WSState × Option WSErrorEvent :=
  if s.isReconnecting then (s, none)
  else if maxReconnectAttempts ≤ s.reconnectAttempts then
    (s, if s.hasOnError then some .reconnectFailed else none)
  else
    let attempts := s.reconnectAttempts + 1
    let delay := min (reconnectDelay * 2 ^ (attempts - 1)) 30000
    ({ s with isReconnecting := true
              reconnectAttempts := attempts
              reconnectTimer := some delay }, none)

/-- `disconnect` (websocket.ts lines 375-388): cancels and clears the
reconnect timer, clears the reconnecting flag, zeroes the attempt counter and
releases (closes and nulls) the transport handle. -/
def disconnect (s : WSState) : WSState :=
  { s with reconnectTimer := none
           isReconnecting := false
           reconnectAttempts := 0
           ws := false }

/-- Effect of the `onopen` handler on the reconnect policy (websocket.ts
lines 96-97): a successfully opened connection resets the attempt counter and
the reconnecting flag. -/
def connectOpen (s : WSState) : WSState :=
  { s with reconnectAttempts := 0, isReconnecting := false }

/-- The backoff delay formula of websocket.ts line 171 for the n-th
reconnection attempt (the counter equals `n` after the increment). -/
def scheduledDelay (n : Nat) : Nat :=
  min (reconnectDelay * 2 ^ (n - 1)) 30000

/-- C1: for every reconnect attempt number n with 1 ≤ n ≤ maxAttempts, the
delay scheduled before the n-th reconnection equals
min(1000 · 2^(n−1), 30000), and the delay formula is non-decreasing in n,
strictly increasing while below the 30000 ms cap. -/
theorem reconnect_backoff_delay :
    (∀ (n : Nat) (s : WSState), 1 ≤ n → n ≤ 5 → s.isReconnecting = false →
      s.reconnectAttempts = n - 1 →
      (attemptReconnect s).1.reconnectTimer = some (scheduledDelay n)) ∧
    (∀ m n : Nat, m ≤ n → scheduledDelay m ≤ scheduledDelay n) ∧
    (∀ n : Nat, 1 ≤ n → scheduledDelay n < 30000 →
      scheduledDelay n < scheduledDelay (n + 1)) := by
  refine ⟨?_, ?_, ?_⟩
  · intro n s h1 h5 hrec hatt
    have hlt : ¬ maxReconnectAttempts ≤ n - 1 := by
      simp only [maxReconnectAttempts]
      omega
    simp only [attemptReconnect, hrec, Bool.false_eq_true, if_false, hatt, hlt,
      scheduledDelay, Nat.add_sub_cancel]
  · intro m n h
    have hp : 2 ^ (m - 1) ≤ 2 ^ (n - 1) :=
      Nat.pow_le_pow_right (by omega) (by omega)
    have : reconnectDelay * 2 ^ (m - 1) ≤ reconnectDelay * 2 ^ (n - 1) :=
      Nat.mul_le_mul_left _ hp
    exact min_le_min this (le_refl _)
  · intro n h1 hcap
    have hpow : 2 ^ (n - 1) < 2 ^ n := Nat.pow_lt_pow_right (by omega) (by omega)
    have hbase : reconnectDelay * 2 ^ (n - 1) < 30000 := by
      by_contra hge
      push_neg at hge
      have : scheduledDelay n = 30000 := by
        simp only [scheduledDelay]
        omega
      omega
    have heq : scheduledDelay n = reconnectDelay * 2 ^ (n - 1) := by
      simp only [scheduledDelay]
      omega
    have hsucc : n + 1 - 1 = n := by omega
    have hmul : reconnectDelay * 2 ^ (n - 1) < reconnectDelay * 2 ^ n := by
      simp only [reconnectDelay]
      omega
    rw [heq]
    simp only [scheduledDelay, hsucc]
    exact lt_min hmul hbase

/-- Witness for C1 at concrete inputs: the 3rd reconnection from a policy at
attempt counter 2 schedules a 4000 ms timer, and the delay formula is
monotone between attempts 3 and 5, strictly between 4 and 5. -/
theorem reconnect_backoff_delay_spot :
    (attemptReconnect ⟨2, false, none, true, true⟩).1.reconnectTimer = some 4000 ∧
    scheduledDelay 3 ≤ scheduledDelay 5 ∧
    scheduledDelay 4 < scheduledDelay 5 := by
  refine ⟨?_, ?_, ?_⟩
  · have h := reconnect_backoff_delay.1 3 ⟨2, false, none, true, true⟩
      (by decide) (by decide) rfl rfl
    simpa [scheduledDelay, reconnectDelay] using h
  · exact reconnect_backoff_delay.2.1 3 5 (by decide)
  · exact reconnect_backoff_delay.2.2 4 (by decide) (by decide)

/-- C6: when the attempt counter has reached maxAttempts (5), a further
reconnect request (processed by the policy, i.e. not dropped by the
reconnect-in-progress guard) leaves the state unchanged — in particular no
timer is scheduled and the counter stays put — and surfaces a reconnect
failure through the registered `onError` callback; repeating the request
yields the same outcome, and the counter is reset (to 0) only by the open
event of a new connection. -/
theorem reconnect_exhaustion :
    (∀ s : WSState, s.isReconnecting = false →
      maxReconnectAttempts ≤ s.reconnectAttempts → s.hasOnError = true →
      attemptReconnect s = (s, some .reconnectFailed)) ∧
    (∀ s : WSState, s.isReconnecting = false →
      maxReconnectAttempts ≤ s.reconnectAttempts → s.hasOnError = true →
      attemptReconnect (attemptReconnect s).1 = (s, some .reconnectFailed)) ∧
    (∀ s : WSState,
      (connectOpen s).reconnectAttempts = 0 ∧
      (connectOpen s).isReconnecting = false) := by
  have hbase : ∀ s : WSState, s.isReconnecting = false →
      maxReconnectAttempts ≤ s.reconnectAttempts → s.hasOnError = true →
      attemptReconnect s = (s, some .reconnectFailed) := by
    intro s hrec hmax herr
    simp [attemptReconnect, hrec, hmax, herr]
  refine ⟨hbase, ?_, ?_⟩
  · intro s hrec hmax herr
    rw [hbase s hrec hmax herr]
    exact hbase s hrec hmax herr
  · intro s
    exact ⟨rfl, rfl⟩

/-- Witness for C6: an exhausted policy (counter 5, no reconnect in flight,
`onError` registered) surfaces the failure twice in a row without change of
state, and `connectOpen` resets the counter. -/
theorem reconnect_exhaustion_spot :
    attemptReconnect ⟨5, false, none, false, true⟩ =
      (⟨5, false, none, false, true⟩, some .reconnectFailed) ∧
    attemptReconnect (attemptReconnect ⟨5, false, none, false, true⟩).1 =
      (⟨5, false, none, false, true⟩, some .reconnectFailed) ∧
    (connectOpen ⟨5, false, none, false, true⟩).reconnectAttempts = 0 := by
  refine ⟨?_, ?_, ?_⟩
  · exact reconnect_exhaustion.1 ⟨5, false, none, false, true⟩ rfl (by decide) rfl
  · exact reconnect_exhaustion.2.1 ⟨5, false, none, false, true⟩ rfl (by decide) rfl
  · exact (reconnect_exhaustion.2.2 ⟨5, false, none, false, true⟩).1

/-- C7: `disconnect` is idempotent — a second call yields the same state as
one call — and after it the reconnect timer is cancelled (none), the
reconnecting flag is false, the attempt counter is 0 and the transport handle
is released. -/
theorem disconnect_idempotent :
    ∀ s : WSState,
      disconnect (disconnect s) = disconnect s ∧
      (disconnect s).reconnectTimer = none ∧
      (disconnect s).isReconnecting = false ∧
      (disconnect s).reconnectAttempts = 0 ∧
      (disconnect s).ws = false := by
  intro s
  exact ⟨rfl, rfl, rfl, rfl, rfl⟩

/-! ### Frame conditioning (`src/components/AudioRecorder.tsx`,
`handleAudioProcess`, lines 440-607)

A frame is the Int16 sample block obtained from the float-to-int16
conversion at lines 446-451; the claims under verification are about the
logic applied to that block, so frames are modelled as `List Int` of signed
16-bit sample values. -/

/-- Noise filter levels (AudioRecorder.tsx line 30). -/
inductive NoiseFilterLevel
  | off
  | low
  | medium
  | high
deriving DecidableEq

/-- The running maximum of absolute sample values (`max`, lines 455-460;
also `maxAbs` of `sendAudioData`, websocket.ts lines 342-343). -/
def frameMax (xs : List Int) : Nat :=
  xs.foldl (fun m x => max m x.natAbs) 0

/-- `sumOfSquares` (AudioRecorder.tsx lines 499-502); each term
`int16Array[i] * int16Array[i]` equals `|x|^2`. -/
def sumOfSquares (xs : List Int) : Nat :=
  xs.foldl (fun s x => s + x.natAbs ^ 2) 0

/-- `voiceRangeEnergy` (lines 514-524): the squared-amplitude energy of the
samples at indices 5 through 25 (`voiceFreqMin`/`voiceFreqMax`). -/
def voiceRangeEnergy (xs : List Int) : Nat :=
  xs.enum.foldl (fun s p => if 5 ≤ p.1 ∧ p.1 ≤ 25 then s + p.2.natAbs ^ 2 else s) 0

/-- `totalEnergy` (lines 515-519): initialized to 1 (to avoid division by
zero) and accumulating every squared amplitude. -/
def totalEnergy (xs : List Int) : Nat :=
  1 + sumOfSquares xs

/-- `voiceEnergyRatio = voiceRangeEnergy / totalEnergy` (line 526),
modelled over exact rationals. -/
def voiceEnergyShare (xs : List Int) : ℚ :=
  (voiceRangeEnergy xs : ℚ) / (totalEnergy xs : ℚ)

/-- `volumeThreshold` per filter level (lines 480-496). -/
def volumeThreshold : NoiseFilterLevel → Nat
  | .low => 1000
  | .medium => 2000
  | .high => 3000
  | .off => 0

/-- `rmsThreshold` per filter level (lines 480-496). -/
def rmsThreshold : NoiseFilterLevel → Nat
  | .low => 300
  | .medium => 500
  | .high => 800
  | .off => 0

/-- The source comparison `rms > t` with
`rms = sqrt(sumOfSquares / length)` (lines 503-506), in the equivalent
squared form `t^2 * length < sumOfSquares` (both sides of the source
comparison are non-negative; for the empty frame the source compares NaN,
which is falsy, matching `0 < 0 = false` here). -/
def rmsExceeds (xs : List Int) (t : Nat) : Bool :=
  decide (t ^ 2 * xs.length < sumOfSquares xs)

/-- `voiceRatioThreshold` (line 531): 0.25 at level high, 0.15 otherwise. -/
def voiceShareCutoff (level : NoiseFilterLevel) : ℚ :=
  if level = .high then 1/4 else 3/20

/-- `isLikelyVoice` (lines 470-551): initialized to true; in heuristic mode
(RNNoise disabled and level not off) it is the amplitude/RMS test, combined
with the voice-frequency-share test — conjunctively at level high,
disjunctively (boost to true) otherwise; with RNNoise enabled it is the
simple `max > 500` test; at level off (RNNoise disabled) it stays true. -/
def isLikelyVoice (useRNNoise : Bool) (level : NoiseFilterLevel)
    (xs : List Int) : Bool :=
  if useRNNoise = false ∧ level ≠ .off then
    let amp := decide (volumeThreshold level < frameMax xs) ||
               rmsExceeds xs (rmsThreshold level)
    let freq := decide (voiceShareCutoff level < voiceEnergyShare xs)
    if level = .high then amp && freq
    else if freq then true else amp
  else if useRNNoise then decide (500 < frameMax xs)
  else true

/-- A concrete 6-sample frame: RMS is above the high-level threshold
(sum of squares 9999999 over 6 samples, well above 800²·6) while the
voice-band share is exactly 1/10 (only index 5 lies in the 5..25 band). -/
def highRmsLowVoiceFrame : List Int := [2999, 77, 8, 2, 1, 1000]

/-- C3: heuristic-mode gating — at level off every frame is kept; at level
high a frame is kept only if both the amplitude/RMS criterion
(peak > 3000 or RMS > 800) and the voice-energy-share criterion (> 1/4)
hold; at levels low and medium the frame is kept if the level's
amplitude/RMS criterion holds or the voice-energy-share exceeds 3/20; and a
concrete frame at level high with RMS above threshold but share 1/10 is not
kept. -/
theorem heuristic_gating :
    (∀ xs : List Int, isLikelyVoice false .off xs = true) ∧
    (∀ xs : List Int, isLikelyVoice false .high xs =
      ((decide (3000 < frameMax xs) || rmsExceeds xs 800) &&
        decide ((1 : ℚ)/4 < voiceEnergyShare xs))) ∧
    (∀ xs : List Int, isLikelyVoice false .low xs =
      (decide (1000 < frameMax xs) || rmsExceeds xs 300 ||
        decide ((3 : ℚ)/20 < voiceEnergyShare xs))) ∧
    (∀ xs : List Int, isLikelyVoice false .medium xs =
      (decide (2000 < frameMax xs) || rmsExceeds xs 500 ||
        decide ((3 : ℚ)/20 < voiceEnergyShare xs))) ∧
    (voiceEnergyShare highRmsLowVoiceFrame = 1/10 ∧
      rmsExceeds highRmsLowVoiceFrame 800 = true ∧
      isLikelyVoice false .high highRmsLowVoiceFrame = false) := by
  have hshare : voiceEnergyShare highRmsLowVoiceFrame = 1/10 := by
    unfold voiceEnergyShare
    norm_num [show voiceRangeEnergy highRmsLowVoiceFrame = 1000000 from by decide,
              show totalEnergy highRmsLowVoiceFrame = 10000000 from by decide]
  refine ⟨?_, ?_, ?_, ?_, hshare, by decide, ?_⟩
  · intro xs
    rfl
  · intro xs
    simp only [isLikelyVoice, volumeThreshold, rmsThreshold, voiceShareCutoff,
      show (NoiseFilterLevel.high = NoiseFilterLevel.high) = True from by simp,
      show (NoiseFilterLevel.high = NoiseFilterLevel.off) = False from by simp,
      ne_eq, not_false_iff, true_and, and_true, if_true, if_false, eq_self_iff_true]
  · intro xs
    simp only [isLikelyVoice, volumeThreshold, rmsThreshold, voiceShareCutoff,
      show (NoiseFilterLevel.low = NoiseFilterLevel.high) = False from by simp,
      show (NoiseFilterLevel.low = NoiseFilterLevel.off) = False from by simp,
      ne_eq, not_false_iff, true_and, and_true, if_true, if_false, eq_self_iff_true]
    generalize decide ((3 : ℚ)/20 < voiceEnergyShare xs) = f
    generalize decide (1000 < frameMax xs) = a
    generalize rmsExceeds xs 300 = b
    cases f <;> cases a <;> cases b <;> simp
  · intro xs
    simp only [isLikelyVoice, volumeThreshold, rmsThreshold, voiceShareCutoff,
      show (NoiseFilterLevel.medium = NoiseFilterLevel.high) = False from by simp,
      show (NoiseFilterLevel.medium = NoiseFilterLevel.off) = False from by simp,
      ne_eq, not_false_iff, true_and, and_true, if_true, if_false, eq_self_iff_true]
    generalize decide ((3 : ℚ)/20 < voiceEnergyShare xs) = f
    generalize decide (2000 < frameMax xs) = a
    generalize rmsExceeds xs 500 = b
    cases f <;> cases a <;> cases b <;> simp
  · simp only [isLikelyVoice, volumeThreshold, rmsThreshold, voiceShareCutoff,
      show (NoiseFilterLevel.high = NoiseFilterLevel.high) = True from by simp,
      show (NoiseFilterLevel.high = NoiseFilterLevel.off) = False from by simp,
      ne_eq, not_false_iff, true_and, and_true, if_true, if_false, eq_self_iff_true,
      hshare]
    norm_num

/-! ### Silence auto-stop and frame dispatch
(`src/components/AudioRecorder.tsx`, lines 553-607)

Closure semantics.  The audio callback is assigned exactly once, at
recording start (`processor.onaudioprocess = handleAudioProcess`, lines
361/376/384), and never re-attached.  Every React `useState` value the
handler mentions — `useRNNoise`, `noiseFilterLevel`, `autoPauseAfterSilence`,
`isConnected`, and in particular `silenceTimerActive` (line 32) — is
therefore frozen in that closure at its recording-start value; calling the
setter only changes what later renders (and their never-attached handler
instances) see.  The `useRef` cells `silenceCounterRef` (line 54) and
`silenceTimerRef` (line 55) are live, shared mutable state.  The model makes
this explicit: frozen values are plain parameters (`capturedTimerActive` for
the frozen `silenceTimerActive`, which is `false` when recording starts),
while refs, the scheduled-timeout population of the JS runtime, the written
React state cell, and the recording flag live in `SilenceState`. -/

/-- The live recorder state: `silenceCounterRef.current` (line 54),
`silenceTimerRef.current` (line 55, the countdown duration in ms of the most
recently scheduled timeout, if the ref is non-null), the number of scheduled
and not yet cleared or fired 3 s timeouts in the runtime, the value of the
React state cell `silenceTimerActive` (line 32, written through its setter
but never read by the once-attached handler), and `isRecording`
(line 23). -/
structure SilenceState where
  silenceCounter : Nat
  silenceTimer : Option Nat
  pendingCountdowns : Nat
  silenceTimerActiveState : Bool
  isRecording : Bool
deriving DecidableEq

/-- The silence detection and auto-pause block (lines 553-583), applied to
one frame with conditioning decision `keep`; `capturedTimerActive` is the
`silenceTimerActive` value frozen into the handler closure at attach time.
A non-kept frame increments the counter and, when the counter exceeds 50
and the captured flag is false (line 560), schedules a fresh 3000 ms
countdown into `silenceTimerRef` — without clearing a previously scheduled
one — and writes true to the state cell (line 562).  A kept frame resets
the counter (line 573) and, only when the ref is non-null AND the captured
flag is true (line 576), clears the latest countdown and writes false. -/
def processSilence (autoPauseAfterSilence : Bool) (capturedTimerActive : Bool)
    (keep : Bool) (s : SilenceState) : SilenceState :=
  if autoPauseAfterSilence then
    if keep = false then
      let s := { s with silenceCounter := s.silenceCounter + 1 }
      if 50 < s.silenceCounter ∧ capturedTimerActive = false then
        { s with silenceTimer := some 3000,
                 pendingCountdowns := s.pendingCountdowns + 1,
                 silenceTimerActiveState := true }
      else s
    else
      let s := { s with silenceCounter := 0 }
      if s.silenceTimer ≠ none ∧ capturedTimerActive = true then
        { s with silenceTimer := none,
                 pendingCountdowns := s.pendingCountdowns - 1,
                 silenceTimerActiveState := false }
      else s
  else s

/-- One scheduled countdown elapsing (lines 565-569): `stopRecording()` is
invoked (recording fully stops) and false is written to the state cell; the
ref is not nulled on this path, and the fired timeout leaves the pending
population. -/
def silenceCountdownFire (s : SilenceState) : SilenceState :=
  { s with isRecording := false,
           silenceTimerActiveState := false,
           pendingCountdowns := s.pendingCountdowns - 1 }

/-- `handleAudioProcess` (lines 440-607) on one int16 frame: computes the
conditioning decision, runs the silence auto-stop block (with the frozen
`capturedTimerActive`), then returns early (transmitting nothing) when the
frame is not kept (lines 586-589) or when the transport is not connected
(lines 592-595); otherwise it hands the frame to `sendAudioData`.  The
second component is the frame passed to the transport, if any. -/
def handleAudioProcess (useRNNoise : Bool) (level : NoiseFilterLevel)
    (autoPauseAfterSilence capturedTimerActive isConnected : Bool)
    (s : SilenceState) (xs : List Int) : SilenceState × Option (List Int) :=
  let keep := isLikelyVoice useRNNoise level xs
  let s := processSilence autoPauseAfterSilence capturedTimerActive keep s
  if keep = false then (s, none)
  else if isConnected = false then (s, none)
  else (s, some xs)

/-- C4: a frame whose conditioning decision is keep = false is never handed
to the transport — the handler returns before invoking the send operation,
whatever the auto-stop configuration, captured flag, connection state and
silence state. -/
theorem gated_frame_never_sent :
    ∀ (useRNNoise : Bool) (level : NoiseFilterLevel)
      (autoPauseAfterSilence capturedTimerActive isConnected : Bool)
      (s : SilenceState) (xs : List Int),
      isLikelyVoice useRNNoise level xs = false →
      (handleAudioProcess useRNNoise level autoPauseAfterSilence
        capturedTimerActive isConnected s xs).2 = none := by
  intro useRNNoise level autoPauseAfterSilence capturedTimerActive isConnected
    s xs h
  simp [handleAudioProcess, h]

/-- Witness for C4: the all-zero frame is gated (here in the RNNoise branch,
whose decision is the pure amplitude test) and the handler transmits nothing
for it, even with the transport connected. -/
theorem gated_frame_never_sent_spot :
    isLikelyVoice true .medium [0, 0, 0] = false ∧
    (handleAudioProcess true .medium true false true ⟨0, none, 0, false, true⟩
      [0, 0, 0]).2 = none := by
  constructor
  · decide
  · exact gated_frame_never_sent true .medium true false true
      ⟨0, none, 0, false, true⟩ [0, 0, 0] (by decide)

/-- Feeding a sequence of per-frame keep decisions through the silence
auto-stop block, under a fixed captured flag. -/
def feedSilence (autoPauseAfterSilence capturedTimerActive : Bool)
    (keeps : List Bool) (s : SilenceState) : SilenceState :=
  keeps.foldl (fun s k => processSilence autoPauseAfterSilence
    capturedTimerActive k s) s

set_option maxRecDepth 4000 in
/-- C5 (evaluation at the failing input): with auto-stop enabled and the
handler running with the `silenceTimerActive` value frozen at recording
start (false), from a fresh state 50 consecutive non-kept frames do not yet
arm the countdown and the 51st arms a 3000 ms countdown; but the 52nd silent
frame schedules a second countdown (the guard at line 560 still reads the
frozen false), and a kept frame before the countdown elapses resets the
counter to zero while cancelling nothing — the cancel guard at line 576
reads the frozen false, so both countdowns stay pending — after which a
countdown firing stops recording despite the intervening voice.  With the
feature disabled the block is inert. -/
theorem silence_countdown_not_cancelled :
    (feedSilence true false (List.replicate 50 false) ⟨0, none, 0, false, true⟩ =
      ⟨50, none, 0, false, true⟩) ∧
    (processSilence true false false ⟨50, none, 0, false, true⟩ =
      ⟨51, some 3000, 1, true, true⟩) ∧
    (processSilence true false false ⟨51, some 3000, 1, true, true⟩ =
      ⟨52, some 3000, 2, true, true⟩) ∧
    (processSilence true false true ⟨52, some 3000, 2, true, true⟩ =
      ⟨0, some 3000, 2, true, true⟩) ∧
    (silenceCountdownFire ⟨0, some 3000, 2, true, true⟩ =
      ⟨0, some 3000, 1, false, false⟩) ∧
    (∀ (capturedTimerActive keep : Bool) (s : SilenceState),
      processSilence false capturedTimerActive keep s = s) := by
  refine ⟨by decide, by decide, by decide, by decide, by decide, ?_⟩
  intro capturedTimerActive keep s
  rfl

/-! ### Outbound audio frames (`src/lib/websocket.ts`, `sendAudioData`,
lines 323-367)

The backpressure branch (lines 336-339) only waits 100 ms when the socket
buffer is over 1 MiB and never changes whether or what is sent, so it has no
observable effect here.  The frame is the Int16 view of the buffer
(`byteLength = 0` exactly when the sample list is empty). -/

/-- The typed errors thrown by the service. -/
inductive ServiceError
  | wsNotConnected
deriving DecidableEq

/-- `sendAudioData` (lines 323-367): throws when the transport is not open;
returns without sending on an empty buffer; computes the peak absolute
sample amplitude `maxAbs` and returns without sending when it is below 100;
otherwise transmits the frame.  The result carries the frame actually
handed to the socket, if any. -/
def sendAudioData (connected : Bool) (xs : List Int) :
    Except ServiceError (Option (List Int)) :=
  if connected = false then .error .wsNotConnected
  else if xs.length = 0 then .ok none
  else if frameMax xs < 100 then .ok none
  else .ok (some xs)

/-- C9: for every non-empty frame sent while the transport is open,
`sendAudioData` drops the frame (sending nothing, without error) exactly
when its peak absolute amplitude is below 100, and transmits it otherwise;
the decision depends only on the frame's amplitude, not on any conditioner
state. -/
theorem sendAudioData_amplitude_filter :
    ∀ (x : Int) (xs : List Int),
      sendAudioData true (x :: xs) =
        (if frameMax (x :: xs) < 100 then .ok none else .ok (some (x :: xs))) := by
  intro x xs
  rfl

/-- C10: a zero-length buffer sent while the transport is open returns
normally with nothing transmitted and no error thrown, while any call on a
non-open transport throws the typed not-connected error. -/
theorem sendAudioData_empty_buffer :
    sendAudioData true [] = .ok none ∧
    (∀ xs : List Int, sendAudioData false xs = .error .wsNotConnected) := by
  exact ⟨rfl, fun xs => rfl⟩

/-! ### Configuration snapshot (`src/lib/websocket.ts`, `sendConfig` lines
256-275 and `updateConfig` lines 369-373)

The service's own config state holds exactly `language` and `model`
(lines 19-22); `updateConfig(language, model)` overwrites both and triggers
a fresh `sendConfig`, which serializes the message
`{event: 'config', config: {...}}` built anew from the current state. -/

/-- The service configuration state (websocket.ts lines 19-22). -/
structure ServiceConfig where
  language : String
  model : String
deriving DecidableEq

/-- JSON-like values appearing in the config message. -/
inductive JsonValue
  | str (s : String)
  | num (q : ℚ)
  | bool (b : Bool)
deriving DecidableEq

/-- The `config` payload of the outbound config message, in serialization
order (websocket.ts lines 256-269). -/
def configMessageFields (c : ServiceConfig) : List (String × JsonValue) :=
  [("language", .str c.language),
   ("model", .str c.model),
   ("noise_suppression", .bool false),
   ("enable_realtime_transcription", .bool true),
   ("use_main_model_for_realtime", .bool true),
   ("realtime_model_type", .str "tiny"),
   ("realtime_processing_pause", .num (1/5)),
   ("stabilization_window", .num 2),
   ("match_threshold", .num 10)]

/-- `updateConfig` (websocket.ts lines 369-373): takes exactly a language and
a model, overwrites the config state with them, and re-sends the config.
It has no further parameter: the target language passed as a third argument
by `AudioRecorder.tsx` line 142 never reaches the service state. -/
def updateConfig (c : ServiceConfig) (language model : String) : ServiceConfig :=
  { language := language, model := model }

/-- C8 (evaluation at the failing input): every transmission after an
`updateConfig` serializes the full snapshot — always the same nine fields,
rebuilt from the current state, never a diff — but the payload contains no
target-language field at all: the lookup of `target_language` in the
serialized message is `none` even immediately after a caller config update,
because `updateConfig` accepts only a language and a model. -/
theorem config_snapshot_no_target_language :
    (∀ (c : ServiceConfig) (l m : String),
      (configMessageFields (updateConfig c l m)).map Prod.fst =
        ["language", "model", "noise_suppression",
         "enable_realtime_transcription", "use_main_model_for_realtime",
         "realtime_model_type", "realtime_processing_pause",
         "stabilization_window", "match_threshold"] ∧
      (configMessageFields (updateConfig c l m)).lookup "language" =
        some (.str l) ∧
      (configMessageFields (updateConfig c l m)).lookup "model" =
        some (.str m)) ∧
    (configMessageFields (updateConfig ⟨"zh", "tiny"⟩ "zh" "tiny")).lookup
      "target_language" = none := by
  constructor
  · intro c l m
    refine ⟨rfl, rfl, ?_⟩
    simp [configMessageFields, updateConfig, List.lookup]
  · decide

/-! ### Configuration handshake (`src/lib/websocket.ts`, `sendConfig` retry
loop, lines 271-316)

Per attempt (1-based, at most 3), the loop sends the serialized config and
awaits an acknowledgement with a 5 s timeout.  On acknowledgement the inner
promise resolves and the loop hits the unconditional `return` (line 307).
On timeout (lines 279-287) the handler logs that attempt n+1 will follow but
then, for attempts 1 and 2, RESOLVES the inner promise — so control likewise
reaches the `return` and the function reports success after a single
transmission; only at attempt 3 does the timeout reject, which the catch
block turns into a thrown error.  A synchronous send failure is caught and,
before attempt 3, leads to an actual retry (lines 309-315). -/

/-- Outcome of one handshake attempt, as seen by the retry loop. -/
inductive HandshakeOutcome
  | ack
  | timeout
  | sendFailure
deriving DecidableEq

/-- The `sendConfig` retry loop (websocket.ts lines 271-316) as a function
of the three per-attempt outcomes.  Result: (number of attempts on which
`ws.send` was invoked, whether `sendConfig` returned without throwing). -/
def sendConfigRun (o1 o2 o3 : HandshakeOutcome) : Nat × Bool :=
  match o1 with
  | .ack => (1, true)
  | .timeout => (1, true)
  | .sendFailure =>
    match o2 with
    | .ack => (2, true)
    | .timeout => (2, true)
    | .sendFailure =>
      match o3 with
      | .ack => (3, true)
      | .timeout => (3, false)
      | .sendFailure => (3, false)

/-- C2 (evaluation at the failing input): when the first config transmission
receives no acknowledgement within the 5 s window, `sendConfig` performs no
further transmission and returns success after exactly one send — in
particular, on the claimed all-timeouts run only one send ever happens, so
the handshake is not retried and the degraded-Ready outcome is reached
without any re-send. -/
theorem sendConfig_timeout_no_retry :
    (∀ o2 o3 : HandshakeOutcome, sendConfigRun .timeout o2 o3 = (1, true)) ∧
    sendConfigRun .timeout .timeout .timeout = (1, true) := by
  exact ⟨fun o2 o3 => rfl, rfl⟩

end RTC
